import Mathlib

/-!
Shallow embedding of the `dynasty-stripe-api` repository: two checkout
session creators (a brand-scoped one and a generic one, both in
`src/unnamed/part_000`) and a webhook receiver (`src/api/webhook.ts`).

Requests, environment configuration and the payment provider are made
explicit: each handler is a pure function from the environment, an
abstract provider, the HTTP method and the parsed request body to the
HTTP response paired with the list of remote calls (or body-read /
logging effects) it performed.
-/

/-- JavaScript falsiness of an optional string value: `undefined` and the
empty string are falsy (`!x`, `x || y`). -/
def jsFalsy : Option String → Bool
  | none => true
  | some s => s == ""

/-- Environment configuration read by the handlers (`process.env`). A
`none` field is an unset environment variable. -/
structure Env where
  baseUrlQuant : Option String   -- NEXT_PUBLIC_BASE_URL_QUANT
  baseUrlCredit : Option String  -- NEXT_PUBLIC_BASE_URL_CREDIT
  baseUrl : Option String        -- NEXT_PUBLIC_BASE_URL
  webhookSecret : Option String  -- STRIPE_WEBHOOK_SECRET
  deriving DecidableEq, Repr

/-- Parsed JSON body of a create-session request. Absent fields are
`none`; `quantity` is a JSON number (modelled as an integer). -/
structure SessionReq where
  priceId : Option String
  brand : Option String
  quantity : Option Int
  customerEmail : Option String
  successUrl : Option String
  cancelUrl : Option String
  deriving DecidableEq, Repr

/-- Argument record of `stripe.checkout.sessions.create` as both session
creators assemble it (lines 66-74 and 120-128 of `src/unnamed/part_000`). -/
structure SessionParams where
  mode : String
  customer_email : Option String
  price : String
  quantity : Int
  success_url : String
  cancel_url : String
  allow_promotion_codes : Bool
  automatic_tax_enabled : Bool
  deriving DecidableEq, Repr

/-- The provider's answer to a successful create call: a checkout session
whose `url` field is a nullable string. -/
structure Session where
  url : Option String
  deriving DecidableEq, Repr

/-- Response bodies the handlers produce: a JSON `{ error }` object, a
JSON `{ url }` object, the JSON `{ received: true }` acknowledgment, or a
plain-text `send`. -/
inductive RespBody where
  | errorMsg (msg : String)
  | urlBody (url : Option String)
  | received
  | text (s : String)
  deriving DecidableEq, Repr

/-- An HTTP response: status code and body. -/
structure Resp where
  status : Nat
  body : RespBody
  deriving DecidableEq, Repr

/-- The brand-scoped allow-lists (`ALLOWLIST` in `src/unnamed/part_000`,
lines 20-29): a record keyed by brand name mapping to a set of permitted
price identifiers. -/
def ALLOWLIST (brand : String) : Option (List String) :=
  if brand = "quant" then
    some ["price_live_quant_starter", "price_live_quant_pro"]
  else if brand = "credit" then
    some ["price_live_credit_basic", "price_live_credit_premium"]
  else
    none

/-- `ALLOWLIST[brand]?.has(priceId)` (line 59): `undefined?.has(...)` is
falsy when the brand has no allow-list. -/
def allowlistHas (brand priceId : String) : Bool :=
  match ALLOWLIST brand with
  | none => false
  | some l => priceId ∈ l

/-- `getBaseUrl` (lines 32-36): brand "credit" reads the credit base URL,
brand "quant" reads the quant base URL, anything else falls back to the
generic `NEXT_PUBLIC_BASE_URL`. -/
def getBaseUrl (env : Env) (brand : Option String) : Option String :=
  if brand = some "credit" then env.baseUrlCredit
  else if brand = some "quant" then env.baseUrlQuant
  else env.baseUrl

/-- The `stripe.checkout.sessions.create` argument object both handlers
build (identical code at lines 66-74 and 120-128): subscription mode,
`customer_email` spread in only when truthy, `String(priceId)` and
`Number(quantity)` line item, success/cancel URLs defaulted with `||`,
promotion codes allowed, automatic tax disabled. -/
def mkParams (baseUrl priceId : String) (quantity : Int) (req : SessionReq) :
    SessionParams :=
  { mode := "subscription"
    customer_email := if jsFalsy req.customerEmail then none else req.customerEmail
    price := priceId
    quantity := quantity
    success_url :=
      if jsFalsy req.successUrl then
        baseUrl ++ "/checkout/success?session_id={CHECKOUT_SESSION_ID}"
      else req.successUrl.getD ""
    cancel_url :=
      if jsFalsy req.cancelUrl then baseUrl ++ "/pricing"
      else req.cancelUrl.getD ""
    allow_promotion_codes := true
    automatic_tax_enabled := false }

/-- The brand-scoped session creator (`handler`, lines 38-81 of
`src/unnamed/part_000`). `provider` abstracts the remote
`stripe.checkout.sessions.create` call: `Except.error` is a rejected
promise, caught by the surrounding `try`. The second component lists the
remote calls issued. -/
def brandHandler (env : Env) (provider : SessionParams → Except String Session)
    (method : String) (req : SessionReq) : Resp × List SessionParams :=
  if method ≠ "POST" then
    ({ status := 405, body := .errorMsg "Method not allowed" }, [])
  else
    let brand := req.brand.getD "quant"
    let quantity := req.quantity.getD 1
    if jsFalsy req.priceId then
      ({ status := 400, body := .errorMsg "Missing priceId" }, [])
    else
      let priceId := req.priceId.getD ""
      if ¬ allowlistHas brand priceId then
        ({ status := 400, body := .errorMsg ("Invalid priceId for brand " ++ brand) }, [])
      else
        let baseUrl := getBaseUrl env (some brand)
        if jsFalsy baseUrl then
          ({ status := 500, body := .errorMsg "Missing BASE_URL env for brand" }, [])
        else
          let params := mkParams (baseUrl.getD "") priceId quantity req
          match provider params with
          | .ok session => ({ status := 200, body := .urlBody session.url }, [params])
          | .error _ =>
            ({ status := 500, body := .errorMsg "Failed to create session" }, [params])

/-- The generic session creator (`handler`, lines 99-135 of
`src/unnamed/part_000`): same flow without the brand allow-list, base URL
taken from the generic `NEXT_PUBLIC_BASE_URL`. -/
def genericHandler (env : Env) (provider : SessionParams → Except String Session)
    (method : String) (req : SessionReq) : Resp × List SessionParams :=
  if method ≠ "POST" then
    ({ status := 405, body := .errorMsg "Method not allowed" }, [])
  else
    let quantity := req.quantity.getD 1
    if jsFalsy req.priceId then
      ({ status := 400, body := .errorMsg "Missing priceId" }, [])
    else
      let priceId := req.priceId.getD ""
      let baseUrl := env.baseUrl
      if jsFalsy baseUrl then
        ({ status := 500, body := .errorMsg "Missing NEXT_PUBLIC_BASE_URL env" }, [])
      else
        let params := mkParams (baseUrl.getD "") priceId quantity req
        match provider params with
        | .ok session => ({ status := 200, body := .urlBody session.url }, [params])
        | .error _ =>
          ({ status := 500, body := .errorMsg "Failed to create session" }, [params])

/-- A verified webhook event; only its `type` tag is inspected. -/
structure WebhookEvent where
  type : String
  deriving DecidableEq, Repr

/-- Observable effects of the webhook handler: reading the raw request
body (`buffer(req)`) and console logging. -/
inductive WEff where
  | bodyRead
  | log (msg : String)
  deriving DecidableEq, Repr

/-- The event-type dispatch (`switch` at lines 49-67 of
`src/api/webhook.ts`): the three recognized tags have placeholder no-op
branches; any other tag logs it as unhandled. Returns the logging
effects of the branch taken. -/
def dispatchEvent (ev : WebhookEvent) : List WEff :=
  if ev.type = "checkout.session.completed" then []
  else if ev.type = "customer.subscription.created" then []
  else if ev.type = "invoice.paid" then []
  else [.log ("Unhandled event type: " ++ ev.type)]

/-- The webhook receiver (`handler`, lines 28-74 of `src/api/webhook.ts`).
`verify` abstracts `stripe.webhooks.constructEvent rawBody sig secret`:
`Except.error` is the thrown signature-verification failure. The raw body
is a byte sequence; the second component is the ordered effect trace. -/
def webhookHandler (env : Env)
    (verify : List Nat → Option String → String → Except String WebhookEvent)
    (method : String) (rawBody : List Nat) (sigHeader : Option String) :
    Resp × List WEff :=
  if method ≠ "POST" then
    ({ status := 405, body := .text "Method Not Allowed" }, [])
  else if jsFalsy env.webhookSecret then
    ({ status := 500, body := .text "Webhook misconfigured" },
      [.log "Missing STRIPE_WEBHOOK_SECRET env"])
  else
    let secret := env.webhookSecret.getD ""
    match verify rawBody sigHeader secret with
    | .error msg =>
      ({ status := 400, body := .text ("Webhook Error: " ++ msg) },
        [.bodyRead, .log ("Webhook signature verification failed: " ++ msg)])
    | .ok ev =>
      ({ status := 200, body := .received }, .bodyRead :: dispatchEvent ev)

/-! ## Concrete inputs used by witnesses and counterexamples -/

/-- A fully configured environment. -/
def envW : Env :=
  { baseUrlQuant := some "https://quant.example"
    baseUrlCredit := some "https://credit.example"
    baseUrl := some "https://generic.example"
    webhookSecret := some "whsec_test" }

/-- A provider that accepts every call. -/
def providerOk : SessionParams → Except String Session :=
  fun _ => .ok { url := some "https://checkout.example/cs_1" }

/-- A request whose priceId is outside every allow-list. -/
def reqBadPrice : SessionReq :=
  { priceId := some "price_other", brand := none, quantity := none,
    customerEmail := none, successUrl := none, cancelUrl := none }

/-- A valid quant request with no optional fields. -/
def reqGood : SessionReq :=
  { priceId := some "price_live_quant_starter", brand := none, quantity := none,
    customerEmail := none, successUrl := none, cancelUrl := none }

/-- A request with no priceId. -/
def reqNoPrice : SessionReq :=
  { priceId := none, brand := none, quantity := none,
    customerEmail := none, successUrl := none, cancelUrl := none }

/-- A verification function that always fails. -/
def verifyFail : List Nat → Option String → String → Except String WebhookEvent :=
  fun _ _ _ => .error "No signatures found matching the expected signature for payload"

/-- A verification function that always yields an event of an unknown type. -/
def verifyOk : List Nat → Option String → String → Except String WebhookEvent :=
  fun _ _ _ => .ok { type := "some.unknown.event" }

/-! ## Claims -/

/-- C1: in the brand-scoped session creator, a POST request whose priceId
is present but not in the allow-list for the resolved brand (default
"quant") is answered 400 with "Invalid priceId for brand {brand}", and no
remote call is made. -/
theorem C1_invalid_priceId_rejected (env : Env)
    (provider : SessionParams → Except String Session) (req : SessionReq)
    (hp : jsFalsy req.priceId = false)
    (ha : allowlistHas (req.brand.getD "quant") (req.priceId.getD "") = false) :
    brandHandler env provider "POST" req =
      ({ status := 400,
         body := .errorMsg ("Invalid priceId for brand " ++ req.brand.getD "quant") }, []) := by
  simp [brandHandler, hp, ha]

/-- Witness for C1 at a concrete rejected request. -/
theorem C1_invalid_priceId_rejected_witness :
    jsFalsy reqBadPrice.priceId = false ∧
    allowlistHas (reqBadPrice.brand.getD "quant") (reqBadPrice.priceId.getD "") = false ∧
    brandHandler envW providerOk "POST" reqBadPrice =
      ({ status := 400, body := .errorMsg "Invalid priceId for brand quant" }, []) :=
  ⟨by decide, by decide,
    C1_invalid_priceId_rejected envW providerOk reqBadPrice (by decide) (by decide)⟩

/-- C3: in the webhook receiver with the secret configured, a POST whose
signature fails verification is answered 400 with "Webhook Error:
{detail}", and a POST that verifies is answered 200 with
{ received: true }, whatever the event type. -/
theorem C3_webhook_verification (env : Env)
    (verify : List Nat → Option String → String → Except String WebhookEvent)
    (body : List Nat) (sig : Option String)
    (hs : jsFalsy env.webhookSecret = false) :
    (∀ msg, verify body sig (env.webhookSecret.getD "") = .error msg →
      (webhookHandler env verify "POST" body sig).1 =
        { status := 400, body := .text ("Webhook Error: " ++ msg) }) ∧
    (∀ ev, verify body sig (env.webhookSecret.getD "") = .ok ev →
      (webhookHandler env verify "POST" body sig).1 =
        { status := 200, body := .received }) := by
  constructor
  · intro msg hm
    simp [webhookHandler, hs, hm]
  · intro ev he
    simp [webhookHandler, hs, he]

/-- Witness for C3 at a concrete body, with a failing and a succeeding
verification function. -/
theorem C3_webhook_verification_witness :
    jsFalsy envW.webhookSecret = false ∧
    (webhookHandler envW verifyFail "POST" [123, 10] none).1 =
      { status := 400,
        body := .text "Webhook Error: No signatures found matching the expected signature for payload" } ∧
    (webhookHandler envW verifyOk "POST" [123, 10] none).1 =
      { status := 200, body := .received } :=
  ⟨by decide,
    (C3_webhook_verification envW verifyFail [123, 10] none (by decide)).1 _ rfl,
    (C3_webhook_verification envW verifyOk [123, 10] none (by decide)).2 _ rfl⟩

/-- C5: in the webhook receiver, a POST arriving while the signing secret
is unconfigured is answered 500 "Webhook misconfigured" and the body is
never read. -/
theorem C5_misconfigured_secret (env : Env)
    (verify : List Nat → Option String → String → Except String WebhookEvent)
    (body : List Nat) (sig : Option String)
    (hs : jsFalsy env.webhookSecret = true) :
    webhookHandler env verify "POST" body sig =
      ({ status := 500, body := .text "Webhook misconfigured" },
        [.log "Missing STRIPE_WEBHOOK_SECRET env"]) ∧
    WEff.bodyRead ∉ (webhookHandler env verify "POST" body sig).2 := by
  have h : webhookHandler env verify "POST" body sig =
      ({ status := 500, body := .text "Webhook misconfigured" },
        [.log "Missing STRIPE_WEBHOOK_SECRET env"]) := by
    simp [webhookHandler, hs]
  refine ⟨h, ?_⟩
  rw [h]
  decide

/-- Witness for C5 with an unset secret. -/
theorem C5_misconfigured_secret_witness :
    jsFalsy (Env.webhookSecret
      { baseUrlQuant := none, baseUrlCredit := none, baseUrl := none,
        webhookSecret := none }) = true ∧
    webhookHandler
        { baseUrlQuant := none, baseUrlCredit := none, baseUrl := none,
          webhookSecret := none } verifyOk "POST" [123, 10] none =
      ({ status := 500, body := .text "Webhook misconfigured" },
        [.log "Missing STRIPE_WEBHOOK_SECRET env"]) :=
  ⟨by decide,
    (C5_misconfigured_secret _ verifyOk [123, 10] none (by decide)).1⟩

/-- C6: in both session creators, a POST with no priceId is answered 400
"Missing priceId" and no remote call is made. -/
theorem C6_missing_priceId (env : Env)
    (provider : SessionParams → Except String Session) (req : SessionReq)
    (h : req.priceId = none) :
    brandHandler env provider "POST" req =
      ({ status := 400, body := .errorMsg "Missing priceId" }, []) ∧
    genericHandler env provider "POST" req =
      ({ status := 400, body := .errorMsg "Missing priceId" }, []) := by
  constructor <;> simp [brandHandler, genericHandler, h, jsFalsy]

/-- Witness for C6 at a concrete priceId-less request. -/
theorem C6_missing_priceId_witness :
    reqNoPrice.priceId = none ∧
    brandHandler envW providerOk "POST" reqNoPrice =
      ({ status := 400, body := .errorMsg "Missing priceId" }, []) ∧
    genericHandler envW providerOk "POST" reqNoPrice =
      ({ status := 400, body := .errorMsg "Missing priceId" }, []) :=
  ⟨rfl, (C6_missing_priceId envW providerOk reqNoPrice rfl).1,
    (C6_missing_priceId envW providerOk reqNoPrice rfl).2⟩

/-- C9: every non-POST request is answered with status exactly 405 on all
three endpoints, with no remote call and no body processing. -/
theorem C9_non_post_rejected (env : Env)
    (provider : SessionParams → Except String Session) (req : SessionReq)
    (verify : List Nat → Option String → String → Except String WebhookEvent)
    (m : String) (body : List Nat) (sig : Option String)
    (h : m ≠ "POST") :
    brandHandler env provider m req =
      ({ status := 405, body := .errorMsg "Method not allowed" }, []) ∧
    genericHandler env provider m req =
      ({ status := 405, body := .errorMsg "Method not allowed" }, []) ∧
    webhookHandler env verify m body sig =
      ({ status := 405, body := .text "Method Not Allowed" }, []) := by
  refine ⟨?_, ?_, ?_⟩ <;> simp [brandHandler, genericHandler, webhookHandler, h]

/-- Witness for C9 at method GET. -/
theorem C9_non_post_rejected_witness :
    "GET" ≠ "POST" ∧
    brandHandler envW providerOk "GET" reqGood =
      ({ status := 405, body := .errorMsg "Method not allowed" }, []) ∧
    genericHandler envW providerOk "GET" reqGood =
      ({ status := 405, body := .errorMsg "Method not allowed" }, []) ∧
    webhookHandler envW verifyOk "GET" [123, 10] none =
      ({ status := 405, body := .text "Method Not Allowed" }, []) := by
  have h := C9_non_post_rejected envW providerOk reqGood verifyOk "GET" [123, 10] none
    (by decide)
  exact ⟨by decide, h.1, h.2.1, h.2.2⟩

/-- A provider that rejects every call with a detailed error. -/
def providerErr : SessionParams → Except String Session :=
  fun _ => .error "No such price: price_live_quant_starter"

/-- An environment where the credit base URL is unset but the generic
fallback is configured. -/
def envC2 : Env :=
  { baseUrlQuant := some "https://quant.example"
    baseUrlCredit := none
    baseUrl := some "https://generic.example"
    webhookSecret := none }

/-- A valid credit-brand request. -/
def reqC2 : SessionReq :=
  { priceId := some "price_live_credit_basic", brand := some "credit",
    quantity := none, customerEmail := none, successUrl := none, cancelUrl := none }

/-- C2 counterexample: with the credit base URL unconfigured and the
generic fallback configured, brand "credit" does NOT fall through to the
generic fallback: resolution yields no URL and the handler answers 500,
contrary to the claim that an unconfigured brand uses the fallback. -/
theorem C2_counterexample :
    envC2.baseUrl = some "https://generic.example" ∧
    getBaseUrl envC2 (some "credit") = none ∧
    brandHandler envC2 providerOk "POST" reqC2 =
      ({ status := 500, body := .errorMsg "Missing BASE_URL env for brand" }, []) := by
  refine ⟨rfl, rfl, ?_⟩
  decide

/-- C2 amended: brand "credit" always resolves to the credit base URL and
brand "quant" (or omitted, via the "quant" default) to the quant base
URL, configured or not; only a brand other than "credit" and "quant"
falls through to the generic fallback; when the resolved URL is unset the
response is 500. -/
theorem C2_base_url_resolution (env : Env) (b : String)
    (provider : SessionParams → Except String Session) (req : SessionReq)
    (hp : jsFalsy req.priceId = false)
    (ha : allowlistHas (req.brand.getD "quant") (req.priceId.getD "") = true)
    (hb : jsFalsy (getBaseUrl env (some (req.brand.getD "quant"))) = true) :
    getBaseUrl env (some "credit") = env.baseUrlCredit ∧
    getBaseUrl env (some "quant") = env.baseUrlQuant ∧
    (b ≠ "credit" → b ≠ "quant" → getBaseUrl env (some b) = env.baseUrl) ∧
    (req.brand = none → req.brand.getD "quant" = "quant") ∧
    brandHandler env provider "POST" req =
      ({ status := 500, body := .errorMsg "Missing BASE_URL env for brand" }, []) := by
  refine ⟨by simp [getBaseUrl], by simp [getBaseUrl], ?_, ?_, ?_⟩
  · intro h1 h2
    simp [getBaseUrl, h1, h2]
  · intro h
    simp [h]
  · simp [brandHandler, hp, ha, hb]

/-- An environment where the quant base URL is unset but the generic
fallback is configured. -/
def envNoQuant : Env :=
  { baseUrlQuant := none
    baseUrlCredit := some "https://credit.example"
    baseUrl := some "https://generic.example"
    webhookSecret := none }

/-- Witness for the amended C2 at a quant request whose brand URL is unset. -/
theorem C2_base_url_resolution_witness :
    jsFalsy reqGood.priceId = false ∧
    allowlistHas (reqGood.brand.getD "quant") (reqGood.priceId.getD "") = true ∧
    jsFalsy (getBaseUrl envNoQuant (some (reqGood.brand.getD "quant"))) = true ∧
    (getBaseUrl envNoQuant (some "other") = envNoQuant.baseUrl ∧
     brandHandler envNoQuant providerOk "POST" reqGood =
       ({ status := 500, body := .errorMsg "Missing BASE_URL env for brand" }, [])) := by
  have h := C2_base_url_resolution envNoQuant "other" providerOk reqGood
    (by decide) (by decide) (by decide)
  exact ⟨by decide, by decide, by decide, h.2.2.1 (by decide) (by decide), h.2.2.2.2⟩

/-- A valid quant request carrying quantity 0. -/
def reqQ0 : SessionReq :=
  { priceId := some "price_live_quant_starter", brand := none, quantity := some 0,
    customerEmail := none, successUrl := none, cancelUrl := none }

/-- C4 counterexample: a request with quantity 0 proceeds to the remote
call in both session creators and the issued call carries quantity 0,
which is not positive — no positivity check exists. -/
theorem C4_counterexample :
    (brandHandler envW providerOk "POST" reqQ0).2.map SessionParams.quantity = [0] ∧
    (genericHandler envW providerOk "POST" reqQ0).2.map SessionParams.quantity = [0] ∧
    ¬ (0 : Int) > 0 := by
  refine ⟨?_, ?_, by decide⟩ <;> decide

/-- C4 amended: quantity defaults to 1 when absent and is otherwise passed
through unchanged to the remote call; no positivity or integrality check
is performed on it. -/
theorem C4_quantity_default (env : Env)
    (provider : SessionParams → Except String Session) (m : String)
    (req : SessionReq) :
    (∀ p ∈ (brandHandler env provider m req).2, p.quantity = req.quantity.getD 1) ∧
    (∀ p ∈ (genericHandler env provider m req).2, p.quantity = req.quantity.getD 1) ∧
    (req.quantity = none → req.quantity.getD 1 = 1) := by
  refine ⟨?_, ?_, fun h => by simp [h]⟩
  · intro p hp
    simp only [brandHandler] at hp
    repeat' split at hp
    all_goals simp_all [mkParams]
  · intro p hp
    simp only [genericHandler] at hp
    repeat' split at hp
    all_goals simp_all [mkParams]

/-- Witness for the amended C4: the call issued for a quantity-less
request carries quantity 1. -/
theorem C4_quantity_default_witness :
    mkParams "https://quant.example" "price_live_quant_starter" 1 reqGood ∈
      (brandHandler envW providerOk "POST" reqGood).2 ∧
    (mkParams "https://quant.example" "price_live_quant_starter" 1 reqGood).quantity
      = reqGood.quantity.getD 1 :=
  ⟨by decide,
    (C4_quantity_default envW providerOk "POST" reqGood).1 _ (by decide)⟩

/-- C7: in both session creators, any failure of the remote call is
answered with a generic 500 "Failed to create session"; the response is
the same for every provider error detail, so the detail is not surfaced. -/
theorem C7_provider_failure_generic_500 (env : Env) (req : SessionReq)
    (emsg : String) (provider : SessionParams → Except String Session)
    (herr : ∀ p, provider p = .error emsg) :
    (jsFalsy req.priceId = false →
      allowlistHas (req.brand.getD "quant") (req.priceId.getD "") = true →
      jsFalsy (getBaseUrl env (some (req.brand.getD "quant"))) = false →
      brandHandler env provider "POST" req =
        ({ status := 500, body := .errorMsg "Failed to create session" },
          [mkParams ((getBaseUrl env (some (req.brand.getD "quant"))).getD "")
            (req.priceId.getD "") (req.quantity.getD 1) req])) ∧
    (jsFalsy req.priceId = false → jsFalsy env.baseUrl = false →
      genericHandler env provider "POST" req =
        ({ status := 500, body := .errorMsg "Failed to create session" },
          [mkParams (env.baseUrl.getD "") (req.priceId.getD "")
            (req.quantity.getD 1) req])) := by
  constructor
  · intro hp ha hb
    simp [brandHandler, hp, ha, hb, herr]
  · intro hp hb
    simp [genericHandler, hp, hb, herr]

/-- Witness for C7 with a provider that rejects with a detailed error. -/
theorem C7_provider_failure_generic_500_witness :
    (∀ p, providerErr p = .error "No such price: price_live_quant_starter") ∧
    jsFalsy reqGood.priceId = false ∧
    allowlistHas (reqGood.brand.getD "quant") (reqGood.priceId.getD "") = true ∧
    jsFalsy (getBaseUrl envW (some (reqGood.brand.getD "quant"))) = false ∧
    jsFalsy envW.baseUrl = false ∧
    (brandHandler envW providerErr "POST" reqGood).1 =
      { status := 500, body := .errorMsg "Failed to create session" } ∧
    (genericHandler envW providerErr "POST" reqGood).1 =
      { status := 500, body := .errorMsg "Failed to create session" } := by
  have h := C7_provider_failure_generic_500 envW reqGood
    "No such price: price_live_quant_starter" providerErr (fun _ => rfl)
  refine ⟨fun _ => rfl, by decide, by decide, by decide, by decide, ?_, ?_⟩
  · rw [h.1 (by decide) (by decide) (by decide)]
  · rw [h.2 (by decide) (by decide)]

/-- C8: in both session creators, a request that reaches the remote call
issues exactly one call, in subscription mode with the given price and
quantity, customer email only when supplied, success and cancel URLs
defaulted to "{baseUrl}/checkout/success?session_id={CHECKOUT_SESSION_ID}"
and "{baseUrl}/pricing" when not supplied, promotion codes allowed and
automatic tax disabled; on provider success the response is 200 with
{ url } taken verbatim from the provider response. -/
theorem C8_session_call_parameters (env : Env)
    (provider : SessionParams → Except String Session) (req : SessionReq) :
    (∀ base pid q,
      (mkParams base pid q req).mode = "subscription" ∧
      (mkParams base pid q req).price = pid ∧
      (mkParams base pid q req).quantity = q ∧
      (mkParams base pid q req).allow_promotion_codes = true ∧
      (mkParams base pid q req).automatic_tax_enabled = false ∧
      (jsFalsy req.customerEmail = true → (mkParams base pid q req).customer_email = none) ∧
      (jsFalsy req.customerEmail = false →
        (mkParams base pid q req).customer_email = req.customerEmail) ∧
      (jsFalsy req.successUrl = true → (mkParams base pid q req).success_url =
        base ++ "/checkout/success?session_id={CHECKOUT_SESSION_ID}") ∧
      (jsFalsy req.cancelUrl = true →
        (mkParams base pid q req).cancel_url = base ++ "/pricing")) ∧
    (jsFalsy req.priceId = false →
      allowlistHas (req.brand.getD "quant") (req.priceId.getD "") = true →
      jsFalsy (getBaseUrl env (some (req.brand.getD "quant"))) = false →
      (brandHandler env provider "POST" req).2 =
        [mkParams ((getBaseUrl env (some (req.brand.getD "quant"))).getD "")
          (req.priceId.getD "") (req.quantity.getD 1) req] ∧
      (∀ s, provider (mkParams ((getBaseUrl env (some (req.brand.getD "quant"))).getD "")
          (req.priceId.getD "") (req.quantity.getD 1) req) = .ok s →
        (brandHandler env provider "POST" req).1 =
          { status := 200, body := .urlBody s.url })) ∧
    (jsFalsy req.priceId = false → jsFalsy env.baseUrl = false →
      (genericHandler env provider "POST" req).2 =
        [mkParams (env.baseUrl.getD "") (req.priceId.getD "")
          (req.quantity.getD 1) req] ∧
      (∀ s, provider (mkParams (env.baseUrl.getD "") (req.priceId.getD "")
          (req.quantity.getD 1) req) = .ok s →
        (genericHandler env provider "POST" req).1 =
          { status := 200, body := .urlBody s.url })) := by
  refine ⟨?_, ?_, ?_⟩
  · intro base pid q
    refine ⟨rfl, rfl, rfl, rfl, rfl, ?_, ?_, ?_, ?_⟩ <;>
      intro h <;> simp [mkParams, h]
  · intro hp ha hb
    constructor
    · cases hres : provider (mkParams ((getBaseUrl env (some (req.brand.getD "quant"))).getD "")
        (req.priceId.getD "") (req.quantity.getD 1) req) with
      | ok s => simp [brandHandler, hp, ha, hb, hres]
      | error e => simp [brandHandler, hp, ha, hb, hres]
    · intro s hs
      simp [brandHandler, hp, ha, hb, hs]
  · intro hp hb
    constructor
    · cases hres : provider (mkParams (env.baseUrl.getD "")
        (req.priceId.getD "") (req.quantity.getD 1) req) with
      | ok s => simp [genericHandler, hp, hb, hres]
      | error e => simp [genericHandler, hp, hb, hres]
    · intro s hs
      simp [genericHandler, hp, hb, hs]

/-- Witness for C8: a valid quant request issues exactly one call on each
creator and the provider URL comes back verbatim with status 200. -/
theorem C8_session_call_parameters_witness :
    jsFalsy reqGood.priceId = false ∧
    allowlistHas (reqGood.brand.getD "quant") (reqGood.priceId.getD "") = true ∧
    jsFalsy (getBaseUrl envW (some (reqGood.brand.getD "quant"))) = false ∧
    jsFalsy envW.baseUrl = false ∧
    (brandHandler envW providerOk "POST" reqGood).2 =
      [mkParams ((getBaseUrl envW (some (reqGood.brand.getD "quant"))).getD "")
        (reqGood.priceId.getD "") (reqGood.quantity.getD 1) reqGood] ∧
    (brandHandler envW providerOk "POST" reqGood).1 =
      { status := 200, body := .urlBody (some "https://checkout.example/cs_1") } ∧
    (genericHandler envW providerOk "POST" reqGood).2 =
      [mkParams (envW.baseUrl.getD "") (reqGood.priceId.getD "")
        (reqGood.quantity.getD 1) reqGood] ∧
    (genericHandler envW providerOk "POST" reqGood).1 =
      { status := 200, body := .urlBody (some "https://checkout.example/cs_1") } := by
  have h := C8_session_call_parameters envW providerOk reqGood
  have hb := h.2.1 (by decide) (by decide) (by decide)
  have hg := h.2.2 (by decide) (by decide)
  exact ⟨by decide, by decide, by decide, by decide, hb.1,
    hb.2 { url := some "https://checkout.example/cs_1" } rfl, hg.1,
    hg.2 { url := some "https://checkout.example/cs_1" } rfl⟩

/-- C10: a request that passes the allow-list check has brand "quant" or
"credit" (the only keys of ALLOWLIST), so base-URL resolution takes the
brand-specific branch, never the generic fallback; if that brand-specific
URL is unset the handler answers 500. -/
theorem C10_generic_fallback_unreachable (env : Env)
    (provider : SessionParams → Except String Session) (req : SessionReq)
    (ha : allowlistHas (req.brand.getD "quant") (req.priceId.getD "") = true) :
    (req.brand.getD "quant" = "quant" ∨ req.brand.getD "quant" = "credit") ∧
    getBaseUrl env (some (req.brand.getD "quant")) =
      (if req.brand.getD "quant" = "credit" then env.baseUrlCredit
       else env.baseUrlQuant) ∧
    (jsFalsy req.priceId = false →
      jsFalsy (getBaseUrl env (some (req.brand.getD "quant"))) = true →
      brandHandler env provider "POST" req =
        ({ status := 500, body := .errorMsg "Missing BASE_URL env for brand" }, [])) := by
  have hbrand : req.brand.getD "quant" = "quant" ∨ req.brand.getD "quant" = "credit" := by
    by_cases h1 : req.brand.getD "quant" = "quant"
    · exact .inl h1
    · by_cases h2 : req.brand.getD "quant" = "credit"
      · exact .inr h2
      · exfalso
        unfold allowlistHas ALLOWLIST at ha
        simp [h1, h2] at ha
  refine ⟨hbrand, ?_, ?_⟩
  · rcases hbrand with h | h <;> simp [getBaseUrl, h]
  · intro hp hb
    simp [brandHandler, hp, ha, hb]

/-- Witness for C10 at a quant request in an environment whose quant base
URL is unset: the fallback stays untouched and the handler answers 500. -/
theorem C10_generic_fallback_unreachable_witness :
    allowlistHas (reqGood.brand.getD "quant") (reqGood.priceId.getD "") = true ∧
    (reqGood.brand.getD "quant" = "quant" ∨ reqGood.brand.getD "quant" = "credit") ∧
    jsFalsy reqGood.priceId = false ∧
    jsFalsy (getBaseUrl envNoQuant (some (reqGood.brand.getD "quant"))) = true ∧
    brandHandler envNoQuant providerOk "POST" reqGood =
      ({ status := 500, body := .errorMsg "Missing BASE_URL env for brand" }, []) := by
  have h := C10_generic_fallback_unreachable envNoQuant providerOk reqGood (by decide)
  exact ⟨by decide, h.1, by decide, by decide, h.2.2 (by decide) (by decide)⟩
